import Mathlib

/-!
Shallow embedding of the `tasks_loop` scheduler package
(`packages/tasks_loop/src/tasks_loop/{job,scheduler,config}.py`).

Modelling conventions:
* `datetime` values are modelled as integer epoch seconds (`Nat`).
* The external `croniter` library is modelled abstractly by `CronParse`:
  a schedule string either fails to parse (any exception raised by
  `croniter(...)` / `get_prev`, caught by `_is_job_due`'s `except` clause)
  or determines, for each time `now`, the most recent scheduled firing
  time at or before `now` (`croniter(expr, now).get_prev(datetime)`).
* `subprocess.run` outcomes are modelled by `ExecOutcome`: the process
  completed with a return code and captured stdout/stderr, timed out
  (`subprocess.TimeoutExpired`), or failed to launch (any other exception).
* Python `dict` values iterate in insertion order, so the scheduler's job
  map is modelled as a `List Job` in insertion order.
-/

/-- Job priority levels (`job.py`, `Priority`). -/
inductive Priority where
  | urgent
  | high
  | medium
  | low
deriving DecidableEq, Repr

/-- The rank of a priority in `priority_order` (`Priority.__lt__` compares
`priority_order.index(self) < priority_order.index(other)`). -/
def Priority.rank : Priority → Nat
  | .urgent => 0
  | .high => 1
  | .medium => 2
  | .low => 3

/-- Job execution states (`job.py`, `JobState`). -/
inductive JobState where
  | pending
  | running
  | completed
  | failed
deriving DecidableEq, Repr

/-- Result of a job execution (`job.py`, `JobResult`). Durations are modelled
in whole seconds. -/
structure JobResult where
  success : Bool
  timestamp : Nat
  message : String := ""
  duration_seconds : Nat := 0
deriving DecidableEq, Repr

/-- Abstract model of the `croniter` library's view of a schedule string:
either every use raises (the string cannot be parsed as a cron expression),
or the string determines the most recent scheduled firing time at or before
any given time. -/
inductive CronParse where
  | invalid : CronParse
  | valid : (Nat → Nat) → CronParse

/-- The every-minute schedule (`* * * * *`): the most recent firing at or
before `now` is the last multiple of 60 seconds. -/
def everyMin : CronParse := CronParse.valid (fun now => now - now % 60)

/-- A scheduled job definition (`job.py`, `Job`): required fields, optional
fields with their dataclass defaults, and runtime state. -/
structure Job where
  id : String
  name : String
  command : String
  schedule : CronParse
  priority : Priority := Priority.medium
  description : String := ""
  enabled : Bool := true
  max_retries : Nat := 0
  timeout_seconds : Option Nat := none
  state : JobState := JobState.pending
  last_run : Option Nat := none
  last_result : Option JobResult := none
  retry_count : Nat := 0

/-- `Job.record_result`: store the result's timestamp and the result, then on
success move to `completed` and reset the retry counter, on failure move to
`failed` and increment it. -/
def Job.record_result (job : Job) (result : JobResult) : Job :=
  if result.success then
    { job with
      last_run := some result.timestamp
      last_result := some result
      state := JobState.completed
      retry_count := 0 }
  else
    { job with
      last_run := some result.timestamp
      last_result := some result
      state := JobState.failed
      retry_count := job.retry_count + 1 }

/-- `Job.can_retry`: retry is allowed iff the job is in `failed` state and the
retry counter is below `max_retries`. -/
def Job.can_retry (job : Job) : Bool :=
  decide (job.state = JobState.failed) && decide (job.retry_count < job.max_retries)

/-- `Job.reset_state`: back to `pending` with the retry counter cleared. -/
def Job.reset_state (job : Job) : Job :=
  { job with state := JobState.pending, retry_count := 0 }

/-- `TaskScheduler._is_job_due`: inside the `try` block, first construct the
croniter and take the most recent firing time at or before `now`; any
exception is caught, logged and turned into `False`. Only then: a job that
never ran is due; otherwise it is due iff that firing time is strictly after
`last_run`. -/
def _is_job_due (job : Job) (now : Nat) : Bool :=
  match job.schedule with
  | CronParse.invalid => false
  | CronParse.valid prevFire =>
    match job.last_run with
    | none => true
    | some lastRun => decide (prevFire now > lastRun)

/-- Stable insertion of a job into a priority-sorted list: the job goes in
front of the first entry whose priority rank is at least its own. Together
with `sortJobs` below this models Python's stable `list.sort` with key
`j.priority` under `Priority.__lt__`. -/
def insertByPriority (j : Job) : List Job → List Job
  | [] => [j]
  | k :: ks =>
    if j.priority.rank ≤ k.priority.rank then j :: k :: ks
    else k :: insertByPriority j ks

/-- Stable sort of jobs ascending by priority rank (model of
`due_jobs.sort(key=lambda j: j.priority)`). -/
def sortJobs : List Job → List Job
  | [] => []
  | j :: js => insertByPriority j (sortJobs js)

/-- `TaskScheduler.get_jobs_due`: keep enabled, non-`running` jobs that are
due now (in the job map's insertion order), then stable-sort them ascending
by priority rank. -/
def get_jobs_due (jobs : List Job) (now : Nat) : List Job :=
  sortJobs (jobs.filter (fun job =>
    job.enabled && !(decide (job.state = JobState.running)) && _is_job_due job now))

/-- Outcome of one `subprocess.run` invocation, as seen by
`TaskScheduler.execute_job`: normal completion with a return code and the
captured streams, `subprocess.TimeoutExpired`, or any other exception while
launching/running. `elapsed` models `(datetime.now() - start_time)` in whole
seconds at the point the corresponding branch builds its `JobResult`. -/
inductive ExecOutcome where
  | completed (returncode : Int) (stdout : String) (stderr : String) (elapsed : Nat)
  | timedOut (elapsed : Nat)
  | launchError (errmsg : String) (elapsed : Nat)

/-- `timeout = job.timeout_seconds or self.config.default_timeout_seconds`:
Python's `or` falls back to the default when the override is absent *or*
falsy, so a present override of `0` (or `None`) is ignored and the
process-wide default is used instead. -/
def resolveTimeout (default_timeout : Nat) (job : Job) : Nat :=
  match job.timeout_seconds with
  | some t => if t = 0 then default_timeout else t
  | none => default_timeout

/-- `TaskScheduler.execute_job`: mark the job `running`, resolve the timeout
(the job's own `timeout_seconds` if set and nonzero, else the config
default — Python `or`), build a `JobResult` from the subprocess outcome —
success iff return code 0 with the stripped stdout (stderr on failure) and
the elapsed duration; on timeout a failure whose message names the timeout
and whose duration is the timeout value; on a launch error a failure with
the exception text — then record the result on the job. Returns the updated
job and the result (`end_time` models the `datetime.now()` used for the
result's timestamp). -/
def execute_job (default_timeout : Nat) (job : Job) (outcome : ExecOutcome)
    (end_time : Nat) : Job × JobResult :=
  let running_job := { job with state := JobState.running }
  let timeout := resolveTimeout default_timeout job
  let job_result : JobResult :=
    match outcome with
    | ExecOutcome.completed returncode out err elapsed =>
      let success := decide (returncode = 0)
      { success := success
        timestamp := end_time
        message := (if success then out else err).trim
        duration_seconds := elapsed }
    | ExecOutcome.timedOut _ =>
      { success := false
        timestamp := end_time
        message := "Job timed out after " ++ toString timeout ++ " seconds"
        duration_seconds := timeout }
    | ExecOutcome.launchError e elapsed =>
      { success := false
        timestamp := end_time
        message := "Execution error: " ++ e
        duration_seconds := elapsed }
  (running_job.record_result job_result, job_result)

/-- `TaskScheduler.run_once`: one scheduler tick. Compute the due jobs; if
none, report 0. Otherwise execute only the first `max_concurrent` entries of
the priority-ordered due list (`due_jobs[:max_concurrent_jobs]`), updating
each executed job in the job map (Python mutates the shared `Job` objects;
job ids are the map's keys, hence unique), and report how many jobs were
executed. `outcome` gives each executed command's subprocess outcome by job
id. -/
def run_once (max_concurrent : Nat) (default_timeout : Nat) (jobs : List Job)
    (now : Nat) (outcome : String → ExecOutcome) (end_time : Nat) :
    List Job × Nat :=
  let due_jobs := get_jobs_due jobs now
  if due_jobs.isEmpty then (jobs, 0)
  else
    let toRun := due_jobs.take max_concurrent
    (jobs.map (fun k =>
       if toRun.any (fun j => j.id == k.id)
       then (execute_job default_timeout k (outcome k.id) end_time).fst
       else k),
     toRun.length)

/-! ### Lemmas about the stable priority sort -/

lemma mem_insertByPriority {a j : Job} {l : List Job} :
    a ∈ insertByPriority j l ↔ a = j ∨ a ∈ l := by
  induction l with
  | nil => simp [insertByPriority]
  | cons k ks ih =>
    by_cases h : j.priority.rank ≤ k.priority.rank
    · simp [insertByPriority, h]
    · simp [insertByPriority, h, ih]
      tauto

lemma pairwise_insertByPriority {j : Job} {l : List Job}
    (hl : l.Pairwise (fun a b => a.priority.rank ≤ b.priority.rank)) :
    (insertByPriority j l).Pairwise (fun a b => a.priority.rank ≤ b.priority.rank) := by
  induction l with
  | nil => simp [insertByPriority]
  | cons k ks ih =>
    rcases List.pairwise_cons.mp hl with ⟨hk, hks⟩
    by_cases h : j.priority.rank ≤ k.priority.rank
    · simp only [insertByPriority, if_pos h]
      refine List.pairwise_cons.mpr ⟨?_, hl⟩
      intro m hm
      rcases List.mem_cons.mp hm with rfl | hm
      · exact h
      · exact le_trans h (hk m hm)
    · simp only [insertByPriority, if_neg h]
      refine List.pairwise_cons.mpr ⟨?_, ih hks⟩
      intro m hm
      rcases mem_insertByPriority.mp hm with hm | hm
      · subst hm; omega
      · exact hk m hm

lemma sortJobs_pairwise (l : List Job) :
    (sortJobs l).Pairwise (fun a b => a.priority.rank ≤ b.priority.rank) := by
  induction l with
  | nil => simp [sortJobs]
  | cons j js ih => exact pairwise_insertByPriority ih

lemma perm_insertByPriority (j : Job) (l : List Job) :
    List.Perm (insertByPriority j l) (j :: l) := by
  induction l with
  | nil => rfl
  | cons k ks ih =>
    by_cases h : j.priority.rank ≤ k.priority.rank
    · simp [insertByPriority, h]
    · simp only [insertByPriority, if_neg h]
      exact (ih.cons k).trans (List.Perm.swap j k ks)

lemma sortJobs_perm (l : List Job) : List.Perm (sortJobs l) l := by
  induction l with
  | nil => rfl
  | cons j js ih =>
    exact (perm_insertByPriority j (sortJobs js)).trans (ih.cons j)

lemma filter_insertByPriority (ρ : Nat) (j : Job) (l : List Job) :
    (insertByPriority j l).filter (fun a => a.priority.rank == ρ) =
      (j :: l).filter (fun a => a.priority.rank == ρ) := by
  induction l with
  | nil => rfl
  | cons k ks ih =>
    by_cases h : j.priority.rank ≤ k.priority.rank
    · simp [insertByPriority, h]
    · by_cases hj : j.priority.rank = ρ
      · have hk : ¬ k.priority.rank = ρ := by omega
        simp only [insertByPriority, if_neg h, List.filter_cons]
        simp only [hk, hj, beq_iff_eq, if_neg, if_pos, ih, List.filter_cons]
        simp [hk, hj]
      · simp only [insertByPriority, if_neg h, List.filter_cons, ih]
        simp [hj]

lemma filter_sortJobs (ρ : Nat) (l : List Job) :
    (sortJobs l).filter (fun a => a.priority.rank == ρ) =
      l.filter (fun a => a.priority.rank == ρ) := by
  induction l with
  | nil => rfl
  | cons j js ih =>
    calc (insertByPriority j (sortJobs js)).filter (fun a => a.priority.rank == ρ)
        = (j :: sortJobs js).filter (fun a => a.priority.rank == ρ) :=
          filter_insertByPriority ρ j (sortJobs js)
      _ = (j :: js).filter (fun a => a.priority.rank == ρ) := by
          simp only [List.filter_cons, ih]

/-- `record_result` never changes the schedule. -/
lemma record_result_schedule (job : Job) (r : JobResult) :
    (job.record_result r).schedule = job.schedule := by
  by_cases h : r.success <;> simp [Job.record_result, h]

/-! ### Concrete fixtures used by the concrete-instance theorems -/

/-- A job whose schedule string cannot be parsed as a cron expression. -/
def jbad : Job := { id := "bad", name := "Bad", command := "true", schedule := CronParse.invalid }

/-- A job on the every-minute schedule that has never run. -/
def jem : Job := { id := "em", name := "EM", command := "true", schedule := everyMin }

def jl : Job := { id := "low", name := "Low", command := "echo", schedule := everyMin, priority := Priority.low }
def ju : Job := { id := "urgent", name := "Urgent", command := "echo", schedule := everyMin, priority := Priority.urgent }
def jm : Job := { id := "medium", name := "Medium", command := "echo", schedule := everyMin, priority := Priority.medium }
def jh : Job := { id := "high", name := "High", command := "echo", schedule := everyMin, priority := Priority.high }

/-- Every executed command exits with status 1 (a failing run). -/
def failOut : String → ExecOutcome := fun _ => ExecOutcome.completed 1 "" "boom" 1

/-- A job allowed one retry. -/
def rjob : Job := { id := "r", name := "R", command := "false", schedule := everyMin, max_retries := 1 }

/-- First scheduler tick over `rjob` at t=1000: the never-run job is due,
executes and fails at t=1001. -/
def tick1 : List Job × Nat := run_once 1 300 [rjob] 1000 failOut 1001

/-- Second tick at t=1100: the minute firing at t=1080 has elapsed since the
failure at t=1001, so the failed job is selected again. -/
def tick2 : List Job × Nat := run_once 1 300 tick1.fst 1100 failOut 1101

/-- `rjob` as it stands after the first failed run. -/
def rjobFailed : Job :=
  { rjob with state := JobState.failed, retry_count := 1, last_run := some 1001 }

def c3a : Job := { id := "c3", name := "C3", command := "c", schedule := everyMin }

/-- `c3a` after a successful run recorded at t=900. -/
def c3b : Job := c3a.record_result { success := true, timestamp := 900 }

/-- `c3b` after a failed attempt recorded at t=990. -/
def c3c : Job := c3b.record_result { success := false, timestamp := 990 }

def j8a : Job := { id := "t8", name := "T8", command := "c", schedule := everyMin, max_retries := 2 }
def j8b : Job := j8a.record_result { success := false, timestamp := 10 }
def j8c : Job := j8b.record_result { success := false, timestamp := 20 }
def j8d : Job := j8c.record_result { success := true, timestamp := 30 }

/-- A job with its own 5-second timeout override. -/
def jt : Job := { id := "t", name := "T", command := "sleep 999", schedule := everyMin, timeout_seconds := some 5 }

/-- A job with a present timeout override of 0 seconds. -/
def jt0 : Job := { id := "t0", name := "T0", command := "sleep 999", schedule := everyMin, timeout_seconds := some 0 }

/-! ### Claim theorems -/

/-- C1, counterexample: the claim says `is_due` is true for every never-run
job "including schedule strings that cannot be parsed as cron expressions".
But `_is_job_due` builds the croniter inside the `try` block *before* the
`last_run is None` check, so an unparsable schedule makes it return `False`
even for a job that has never run. -/
theorem C1_counterexample :
    jbad.last_run = none ∧ _is_job_due jbad 0 = false := by
  exact ⟨rfl, rfl⟩

/-- C1 (amended): for every never-run job whose schedule parses, `is_due`
returns true regardless of which cron expression it is; for a job whose
schedule cannot be parsed, `is_due` returns false — even on the first run. -/
theorem C1_first_run_invariant :
    (∀ (job : Job) (f : Nat → Nat) (now : Nat),
      job.schedule = CronParse.valid f → job.last_run = none →
      _is_job_due job now = true)
    ∧ ∀ (job : Job) (now : Nat),
      job.schedule = CronParse.invalid → _is_job_due job now = false := by
  constructor
  · intro job f now hs hl
    simp [_is_job_due, hs, hl]
  · intro job now hs
    simp [_is_job_due, hs]

/-- C1 witness: the never-run every-minute job is due at t=0. -/
theorem C1_witness : _is_job_due jem 0 = true :=
  C1_first_run_invariant.1 jem (fun now => now - now % 60) 0 rfl rfl

/-- C2, counterexample: with `max_retries = 1`, the job fails on tick 1
(counter = 1 = `max_retries`), yet on tick 2 the scheduler still executes it
(`tick2.snd = 1`) and the counter reaches 2 > `max_retries`:
`get_jobs_due` never consults the retry counter, so the counter exceeds
`max_retries` while the job remains schedulable. -/
theorem C2_counterexample :
    rjob.max_retries = 1
    ∧ tick1.snd = 1 ∧ tick1.fst.map Job.retry_count = [1]
    ∧ tick1.fst.map Job.state = [JobState.failed]
    ∧ tick2.snd = 1 ∧ tick2.fst.map Job.retry_count = [2] := by
  exact ⟨rfl, rfl, rfl, rfl, rfl, rfl⟩

/-- C2 (amended): the retry counter resets to 0 on success and increments by
one on each failure without upper bound; due-selection does not consult the
retry counter, so an enabled failed job that is due is selected again no
matter how large its counter is (in particular once it equals
`max_retries`), and the counter then exceeds `max_retries`. -/
theorem C2_retry_counter :
    (∀ (job : Job) (now : Nat),
      job.enabled = true → job.state = JobState.failed → _is_job_due job now = true →
      get_jobs_due [job] now = [job])
    ∧ (∀ (job : Job) (r : JobResult), r.success = false →
      (job.record_result r).retry_count = job.retry_count + 1)
    ∧ (∀ (job : Job) (r : JobResult), r.success = true →
      (job.record_result r).retry_count = 0) := by
  refine ⟨?_, ?_, ?_⟩
  · intro job now he hs hd
    simp [get_jobs_due, List.filter_cons, he, hs, hd, sortJobs, insertByPriority]
  · intro job r hr
    simp [Job.record_result, hr]
  · intro job r hr
    simp [Job.record_result, hr]

/-- C2 witness: the failed job with counter already at `max_retries` is still
selected by due-selection at t=1100. -/
theorem C2_witness : get_jobs_due [rjobFailed] 1100 = [rjobFailed] :=
  C2_retry_counter.1 rjobFailed 1100 rfl rfl (by decide)

/-- C3, counterexample: the job completed successfully at t=900 and then a
failed attempt was recorded at t=990. The minute firing at t=960 occurred
after the last successful run, so under the claim the job would be due at
t=1000; but `record_result` advanced `last_run` to 990 on the failure, and
the code compares the firing time 960 against 990, returning not-due. -/
theorem C3_counterexample :
    c3b.state = JobState.completed ∧ c3b.last_run = some 900
    ∧ _is_job_due c3b 1000 = true
    ∧ c3c.state = JobState.failed ∧ c3c.last_run = some 990
    ∧ _is_job_due c3c 1000 = false := by
  exact ⟨rfl, rfl, rfl, rfl, rfl, rfl⟩

/-- C3 (amended): the due-check for a job that has run is determined by the
last recorded execution attempt, successful or failed: `record_result` sets
`last_run` to the result's timestamp in both cases, so after any attempt the
job is due exactly when a scheduled firing is strictly after that attempt's
timestamp. -/
theorem C3_last_attempt_reference :
    (∀ (job : Job) (r : JobResult),
      (job.record_result r).last_run = some r.timestamp)
    ∧ ∀ (job : Job) (r : JobResult) (f : Nat → Nat) (now : Nat),
      job.schedule = CronParse.valid f →
      (_is_job_due (job.record_result r) now = true ↔ r.timestamp < f now) := by
  constructor
  · intro job r
    by_cases h : r.success <;> simp [Job.record_result, h]
  · intro job r f now hs
    have hsch : (job.record_result r).schedule = CronParse.valid f :=
      (record_result_schedule job r).trans hs
    have hlr : (job.record_result r).last_run = some r.timestamp := by
      by_cases h : r.success <;> simp [Job.record_result, h]
    simp [_is_job_due, hsch, hlr]

/-- C3 witness: after the failed attempt at t=990 the job is due again at
t=1100 (firing at t=1080 is after t=990). -/
theorem C3_witness :
    _is_job_due (c3b.record_result { success := false, timestamp := 990 }) 1100 = true :=
  (C3_last_attempt_reference.2 c3b { success := false, timestamp := 990 }
    (fun now => now - now % 60) 1100 rfl).mpr (by decide)

/-- C4: for a job with a present last-run timestamp and a parsable schedule,
`is_due` is true iff the most recent firing at or before `now` is strictly
after `last_run`; in particular, on the every-minute schedule a `last_run`
90 seconds in the past is always due. -/
theorem C4_due_iff_firing_after_last_run :
    (∀ (job : Job) (f : Nat → Nat) (lr now : Nat),
      job.schedule = CronParse.valid f → job.last_run = some lr →
      (_is_job_due job now = true ↔ lr < f now))
    ∧ ∀ (job : Job) (now : Nat),
      job.schedule = everyMin → 90 ≤ now → job.last_run = some (now - 90) →
      _is_job_due job now = true := by
  constructor
  · intro job f lr now hs hl
    simp [_is_job_due, hs, hl]
  · intro job now hs h90 hl
    simp [_is_job_due, hs, everyMin, hl]
    omega

/-- C4 witness: every-minute schedule, `last_run` 90 seconds before t=1000. -/
theorem C4_witness : _is_job_due { jem with last_run := some 910 } 1000 = true :=
  C4_due_iff_firing_after_last_run.2 { jem with last_run := some 910 } 1000 rfl
    (by decide) rfl

/-- C5: due-selection returns the enabled, non-running, due jobs sorted
ascending by priority rank; it is a permutation of exactly those jobs taken
in insertion order, stable on equal priorities (the sublist of each fixed
rank is unchanged); and the four-job example selects in order
urgent, high, medium, low. -/
theorem C5_priority_order :
    (∀ (jobs : List Job) (now : Nat),
      (get_jobs_due jobs now).Pairwise (fun a b => a.priority.rank ≤ b.priority.rank))
    ∧ (∀ (jobs : List Job) (now : Nat),
      List.Perm (get_jobs_due jobs now)
        (jobs.filter (fun job =>
          job.enabled && !(decide (job.state = JobState.running)) && _is_job_due job now)))
    ∧ (∀ (jobs : List Job) (now : Nat) (ρ : Nat),
      (get_jobs_due jobs now).filter (fun j => j.priority.rank == ρ) =
        (jobs.filter (fun job =>
          job.enabled && !(decide (job.state = JobState.running)) && _is_job_due job now)).filter
            (fun j => j.priority.rank == ρ))
    ∧ (get_jobs_due [jl, ju, jm, jh] 0).map Job.id = ["urgent", "high", "medium", "low"] := by
  refine ⟨fun jobs now => sortJobs_pairwise _, fun jobs now => sortJobs_perm _,
    fun jobs now ρ => filter_sortJobs ρ _, by decide⟩

/-- C6: one tick executes only the first `max_concurrent_jobs` entries of the
due list and reports how many it executed: the count is
`min max_concurrent (number due)`, hence at most `max_concurrent`; a job
sharing no id with the selected prefix is left untouched in the job map; and
with `max_concurrent_jobs = 1` and three simultaneously due jobs exactly one
executes. -/
theorem C6_concurrency_bound :
    (∀ (maxc dt : Nat) (jobs : List Job) (now : Nat)
      (outcome : String → ExecOutcome) (et : Nat),
      (run_once maxc dt jobs now outcome et).snd
        = min maxc (get_jobs_due jobs now).length)
    ∧ (∀ (maxc dt : Nat) (jobs : List Job) (now : Nat)
      (outcome : String → ExecOutcome) (et : Nat),
      (run_once maxc dt jobs now outcome et).snd ≤ maxc)
    ∧ (∀ (maxc dt : Nat) (jobs : List Job) (now : Nat)
      (outcome : String → ExecOutcome) (et : Nat) (j : Job), j ∈ jobs →
      (∀ k ∈ (get_jobs_due jobs now).take maxc, k.id ≠ j.id) →
      j ∈ (run_once maxc dt jobs now outcome et).fst)
    ∧ (run_once 1 300 [ju, jh, jm] 0 failOut 1).snd = 1 := by
  have hcount : ∀ (maxc dt : Nat) (jobs : List Job) (now : Nat)
      (outcome : String → ExecOutcome) (et : Nat),
      (run_once maxc dt jobs now outcome et).snd
        = min maxc (get_jobs_due jobs now).length := by
    intro maxc dt jobs now outcome et
    by_cases h : (get_jobs_due jobs now).isEmpty
    · rw [List.isEmpty_iff] at h
      simp [run_once, h]
    · simp [run_once, h, List.length_take]
  refine ⟨hcount, ?_, ?_, by decide⟩
  · intro maxc dt jobs now outcome et
    rw [hcount]
    exact Nat.min_le_left _ _
  · intro maxc dt jobs now outcome et j hj hk
    by_cases h : (get_jobs_due jobs now).isEmpty
    · simpa [run_once, h] using hj
    · simp only [run_once, h, if_neg, Bool.false_eq_true, not_false_iff]
      refine List.mem_map.mpr ⟨j, hj, ?_⟩
      have hany : ((get_jobs_due jobs now).take maxc).any (fun k => k.id == j.id) = false := by
        rw [List.any_eq_false]
        intro k hkmem
        simpa using hk k hkmem
      simp [hany]

/-- C6 witness: with three due jobs and `max_concurrent_jobs = 1`, the
deferred job `jh` is left untouched in the job map. -/
theorem C6_witness : jh ∈ (run_once 1 300 [ju, jh, jm] 0 failOut 1).fst :=
  C6_concurrency_bound.2.2.1 1 300 [ju, jh, jm] 0 failOut 1 jh
    (by simp) (by decide)

/-- C7, counterexample: the claim says the timeout is "the job's own timeout
override if present, else the process-wide default", but `scheduler.py` line
127 computes `timeout = job.timeout_seconds or self.config.default_timeout_seconds`
with Python's `or`, which ignores a present override of 0 as falsy: a job
with `timeout_seconds = 0` that times out records the 300-second default as
its duration, not its own override 0. -/
theorem C7_counterexample :
    jt0.timeout_seconds = some 0
    ∧ (execute_job 300 jt0 (ExecOutcome.timedOut 999) 0).snd.duration_seconds = 300
    ∧ (execute_job 300 jt0 (ExecOutcome.timedOut 999) 0).snd.message
        = "Job timed out after 300 seconds" := by
  exact ⟨rfl, rfl, rfl⟩

/-- C7 (amended): a timed-out execution yields a failed result whose recorded
duration is the resolved timeout — the job's own override if present *and
nonzero*, else the process-wide default (Python's `or` treats a 0 override
as absent) — and whose message identifies the timeout and its duration; the
result does not depend on the wall-clock elapsed time. -/
theorem C7_timeout_result :
    (∀ (dt : Nat) (job : Job) (elapsed et : Nat),
      (execute_job dt job (ExecOutcome.timedOut elapsed) et).snd.success = false
      ∧ (execute_job dt job (ExecOutcome.timedOut elapsed) et).snd.duration_seconds
          = resolveTimeout dt job
      ∧ (execute_job dt job (ExecOutcome.timedOut elapsed) et).snd.message
          = "Job timed out after " ++ toString (resolveTimeout dt job) ++ " seconds")
    ∧ (∀ (dt : Nat) (job : Job) (e1 e2 et : Nat),
      (execute_job dt job (ExecOutcome.timedOut e1) et).snd
        = (execute_job dt job (ExecOutcome.timedOut e2) et).snd)
    ∧ (∀ (dt : Nat) (job : Job) (elapsed et t : Nat),
      job.timeout_seconds = some t → t ≠ 0 →
      (execute_job dt job (ExecOutcome.timedOut elapsed) et).snd.duration_seconds = t)
    ∧ (∀ (dt : Nat) (job : Job) (elapsed et : Nat), job.timeout_seconds = none →
      (execute_job dt job (ExecOutcome.timedOut elapsed) et).snd.duration_seconds = dt)
    ∧ (∀ (dt : Nat) (job : Job) (elapsed et : Nat), job.timeout_seconds = some 0 →
      (execute_job dt job (ExecOutcome.timedOut elapsed) et).snd.duration_seconds = dt) := by
  refine ⟨?_, ?_, ?_, ?_, ?_⟩
  · intro dt job elapsed et
    exact ⟨rfl, rfl, rfl⟩
  · intro dt job e1 e2 et
    rfl
  · intro dt job elapsed et t ht ht0
    simp [execute_job, resolveTimeout, ht, ht0]
  · intro dt job elapsed et ht
    simp [execute_job, resolveTimeout, ht]
  · intro dt job elapsed et ht
    simp [execute_job, resolveTimeout, ht]

/-- C7 witness: the 5-second override job times out with recorded duration 5,
not the 300-second default nor the elapsed time. -/
theorem C7_witness :
    (execute_job 300 jt (ExecOutcome.timedOut 999) 0).snd.duration_seconds = 5 :=
  C7_timeout_result.2.2.1 300 jt 999 0 5 rfl (by decide)

/-- C8: `can_retry` is true iff the state is `failed` and the retry counter
is strictly below `max_retries`; and for a job with `max_retries = 2`, after
one failure `can_retry` is true with counter 1, after a second consecutive
failure the counter is 2 and `can_retry` is false, and an intervening
success resets the counter to 0. -/
theorem C8_can_retry :
    (∀ job : Job, job.can_retry = true ↔
      (job.state = JobState.failed ∧ job.retry_count < job.max_retries))
    ∧ (j8b.can_retry = true ∧ j8b.retry_count = 1)
    ∧ (j8c.retry_count = 2 ∧ j8c.can_retry = false)
    ∧ j8d.retry_count = 0 := by
  refine ⟨fun job => ?_, by decide, by decide, by decide⟩
  simp [Job.can_retry]

/-- C8 witness: the once-failed job satisfies the right-hand side of the
characterization. -/
theorem C8_witness : j8b.state = JobState.failed ∧ j8b.retry_count < j8b.max_retries :=
  (C8_can_retry.1 j8b).mp (by decide)

/-- C9: a job whose schedule cannot be parsed is never due (the exception is
caught inside `_is_job_due` and turned into `False`), and its presence in
the job map changes nothing about which other jobs due-selection returns —
it neither crashes the loop nor blocks the evaluation of other jobs. -/
theorem C9_invalid_schedule_isolated :
    (∀ (job : Job) (now : Nat), job.schedule = CronParse.invalid →
      _is_job_due job now = false)
    ∧ ∀ (l1 l2 : List Job) (bad : Job) (now : Nat), bad.schedule = CronParse.invalid →
      get_jobs_due (l1 ++ bad :: l2) now = get_jobs_due (l1 ++ l2) now := by
  have hdue : ∀ (job : Job) (now : Nat), job.schedule = CronParse.invalid →
      _is_job_due job now = false := by
    intro job now hs
    simp [_is_job_due, hs]
  refine ⟨hdue, ?_⟩
  intro l1 l2 bad now hs
  simp [get_jobs_due, List.filter_append, List.filter_cons, hdue bad now hs]

/-- C9 witness: the unparsable-schedule job is dropped from due-selection
without disturbing the other job. -/
theorem C9_witness : get_jobs_due [jem, jbad] 0 = get_jobs_due [jem] 0 :=
  C9_invalid_schedule_isolated.2 [jem] [] jbad 0 rfl

/-- C10: whatever the outcome of one `execute_job` invocation (zero exit,
non-zero exit, timeout, or launch failure), the returned job's state is
`completed` exactly when the returned result is successful, is always
`completed` or `failed` and never `running`, and the returned result is
recorded as the job's `last_result`. -/
theorem C10_execute_postcondition :
    ∀ (dt : Nat) (job : Job) (outcome : ExecOutcome) (et : Nat),
      ((execute_job dt job outcome et).fst.state = JobState.completed
        ↔ (execute_job dt job outcome et).snd.success = true)
      ∧ ((execute_job dt job outcome et).fst.state = JobState.completed
        ∨ (execute_job dt job outcome et).fst.state = JobState.failed)
      ∧ (execute_job dt job outcome et).fst.state ≠ JobState.running
      ∧ (execute_job dt job outcome et).fst.last_result
          = some (execute_job dt job outcome et).snd := by
  intro dt job outcome et
  cases outcome with
  | completed rc out err elapsed =>
    by_cases h : rc = 0 <;> simp [execute_job, Job.record_result, h]
  | timedOut elapsed =>
    simp [execute_job, Job.record_result]
  | launchError e elapsed =>
    simp [execute_job, Job.record_result]

/-- C10 witness: a successful concrete execution ends in a non-`running`
state. -/
theorem C10_witness :
    (execute_job 300 jem (ExecOutcome.completed 0 "ok" "" 1) 5).fst.state ≠ JobState.running :=
  (C10_execute_postcondition 300 jem (ExecOutcome.completed 0 "ok" "" 1) 5).2.2.1
